import Mathlib

/-!
Verification of the Airtable-backed retrieval plugin server
(`src/server/main.py`) against its specification.

The server is a thin HTTP adapter: it authenticates a bearer token,
enumerates Airtable bases and tables through the metadata API, and issues
one Airtable REST call per table (or per record, for delete), aggregating
the results.  We embed the handlers as pure functions over an `Airtable`
environment giving the outcome of each possible upstream call, and each
handler additionally returns the trace of upstream calls it issued, in
order, so that statements such as "returns 400 before any upstream call"
are expressible.
-/

deriving instance DecidableEq for Except

namespace Server

/-- A JSON value stored in an Airtable record field, as the handlers see it:
either a string or an object (key-value mapping). -/
inductive JVal
  | s (v : String)
  | o (kvs : List (String × String))
deriving DecidableEq

/-- An Airtable record: an id plus a field-name-to-value mapping
(`rec["id"]`, `rec["fields"]`). -/
structure AirRecord where
  id : String
  fields : List (String × JVal)
deriving DecidableEq

/-- Modelled from the spec: a `Document` is `{id: string, text: string,
metadata: opaque key-value mapping}` (its class lives in `models/models.py`,
which is not under `src/`). -/
structure Document where
  id : String
  text : String
  metadata : List (String × String)
deriving DecidableEq

/-- Modelled from the spec: one query of a batch, `{query: string}`. -/
structure Query where
  query : String
deriving DecidableEq

/-- Modelled from the spec: `POST /query` body `{queries: [...]}`. -/
structure QueryRequest where
  queries : List Query
deriving DecidableEq

/-- Modelled from the spec: `POST /upsert` body `{documents: [...]}`. -/
structure UpsertRequest where
  documents : List Document
deriving DecidableEq

/-- Modelled from the spec: `DELETE /delete` body `{ids: [...]}`; an absent
or `None` id list is modelled as the empty list (Python `not request.ids`
is true for both). -/
structure DeleteRequest where
  ids : List String
deriving DecidableEq

/-- One entry of the query response: the dict
`{"id": ..., "text": ..., "metadata": ...}` built by the query handler. -/
structure QResult where
  id : String
  text : JVal
  metadata : JVal
deriving DecidableEq

/-- Response of `POST /query`. -/
structure QueryResponse where
  results : List QResult
deriving DecidableEq

/-- Response of `POST /upsert`. -/
structure UpsertResponse where
  ids : List String
deriving DecidableEq

/-- Response of `DELETE /delete`. -/
structure DeleteResponse where
  success : Bool
deriving DecidableEq

/-- The credentials FastAPI's `HTTPBearer` extracts from the
`Authorization` header. -/
structure HTTPAuthorizationCredentials where
  scheme : String
  credentials : String
deriving DecidableEq

/-- How a handler can fail: `http s` is a deliberately raised
`HTTPException(status_code=s)`; `upstream s` is a
`requests` `HTTPError` from `raise_for_status` on a status-`s` response
that escaped the handler uncaught; `indexError` is the Python `IndexError`
from `request.queries[0]` on an empty list. -/
inductive HandlerError
  | http (status : Nat)
  | upstream (status : Nat)
  | indexError
deriving DecidableEq

/-- Modelled from the spec: the HTTP status the caller observes for each
handler failure.  A raised `HTTPException` keeps its status code; any
uncaught exception (upstream `HTTPError`, `IndexError`) is surfaced by the
framework boundary as a generic 500. -/
def statusOf : HandlerError → Nat
  | .http s => s
  | .upstream _ => 500
  | .indexError => 500

/-- One outbound Airtable REST call, as recorded in a handler's trace. -/
inductive Call
  | listBases
  | listTables (baseId : String)
  | createRecords (baseId tableName : String) (records : List (List (String × JVal)))
  | searchRecords (baseId tableName formula : String)
  | deleteRecord (baseId tableName recordId : String)
deriving DecidableEq

/-- The upstream Airtable service, as an environment assigning an outcome
to each call the server can make.  `Except.error s` means the call came
back with non-success HTTP status `s`, so `raise_for_status` raises.
`bases` and `tables` return id-to-name mappings in iteration order;
`create` returns the ids of the records Airtable created; `search` returns
the records matching a `filterByFormula`; `deleteRecord` deletes one
record. -/
structure Airtable where
  bases : Except Nat (List (String × String))
  tables : String → Except Nat (List (String × String))
  create : String → String → List (List (String × JVal)) → Except Nat (List String)
  search : String → String → String → Except Nat (List AirRecord)
  deleteRecord : String → String → String → Except Nat Unit

/-- The auth guard `validate_token`: succeeds only when the scheme is
exactly `Bearer` and the token equals the configured `BEARER_TOKEN`;
otherwise raises `HTTPException(401)`. -/
def validate_token (BEARER_TOKEN : String) (c : HTTPAuthorizationCredentials) :
    Except HandlerError HTTPAuthorizationCredentials :=
  if c.scheme != "Bearer" || c.credentials != BEARER_TOKEN then
    Except.error (HandlerError.http 401)
  else
    Except.ok c

/-- The hard-coded searched field name of the query handler
(`FIELD_TO_SEARCH`), left at its placeholder value in the source. -/
def FIELD_TO_SEARCH : String := "YourActualFieldNameHere"

/-- The `filterByFormula` string the query handler builds:
`FIND('<query>', {<field>})`. -/
def findFormula (queryText fieldName : String) : String :=
  "FIND(\x27" ++ queryText ++ "\x27, \x7b" ++ fieldName ++ "\x7d)"

/-- Modelled from the spec: Python's `str(dict)` rendering of the opaque
metadata mapping (`str(doc.metadata.dict())`; the metadata class is in
`models/models.py`, not under `src/`): `{'k': 'v', ...}`. -/
def pyDictRepr (kvs : List (String × String)) : String :=
  "\x7b" ++
    String.intercalate (", ")
      (kvs.map (fun kv => "\x27" ++ kv.1 ++ "\x27: \x27" ++ kv.2 ++ "\x27")) ++
    "\x7d"

/-- The upsert handler's document-to-record mapping: the `fields` dict of
the record payload built for one document. -/
def docToRecordFields (doc : Document) : List (String × JVal) :=
  [("DocumentID", JVal.s doc.id),
   ("Text", JVal.s doc.text),
   ("Metadata", JVal.s (pyDictRepr doc.metadata))]

/-- The query handler's record-to-result mapping: id, the searched field
defaulting to the empty string, and the `Metadata` field defaulting to an
empty mapping (`rec["fields"].get(..., ...)`). -/
def recToResult (rec : AirRecord) : QResult :=
  { id := rec.id
    text := (List.lookup FIELD_TO_SEARCH rec.fields).getD (JVal.s "")
    metadata := (List.lookup ("Metadata") rec.fields).getD (JVal.o []) }

/-- One iteration of the upsert handler's inner loop: build the record
payload, POST it, extend the results with the created ids on success, log
and skip on failure.  Returns the contributed ids and the issued call. -/
def upsertTable (env : Airtable) (docs : List Document) (baseId tableName : String) :
    List String × List Call :=
  let payload := docs.map docToRecordFields
  match env.create baseId tableName payload with
  | .ok ids => (ids, [Call.createRecords baseId tableName payload])
  | .error _ => ([], [Call.createRecords baseId tableName payload])

/-- The upsert handler's inner loop over the tables of one base. -/
def upsertTables (env : Airtable) (docs : List Document) (baseId : String) :
    List (String × String) → List String × List Call
  | [] => ([], [])
  | t :: rest =>
      let hd := upsertTable env docs baseId t.2
      let tl := upsertTables env docs baseId rest
      (hd.1 ++ tl.1, hd.2 ++ tl.2)

/-- The upsert handler's outer loop over bases: `get_all_tables` is called
outside any `try`, so its failure propagates and aborts the request. -/
def upsertBases (env : Airtable) (docs : List Document) :
    List (String × String) → Except HandlerError (List String) × List Call
  | [] => (.ok [], [])
  | b :: rest =>
      match env.tables b.1 with
      | .error s => (.error (.upstream s), [Call.listTables b.1])
      | .ok tbls =>
          let hd := upsertTables env docs b.1 tbls
          match upsertBases env docs rest with
          | (.ok ids, c) => (.ok (hd.1 ++ ids), Call.listTables b.1 :: (hd.2 ++ c))
          | (.error e, c) => (.error e, Call.listTables b.1 :: (hd.2 ++ c))

/-- The `POST /upsert` handler: `get_all_bases`, then for every base and
table POST the mapped records, collecting created ids; per-table POST
failures are logged and skipped, metadata failures propagate. -/
def upsert (env : Airtable) (request : UpsertRequest) :
    Except HandlerError UpsertResponse × List Call :=
  match env.bases with
  | .error s => (.error (.upstream s), [Call.listBases])
  | .ok bs =>
      match upsertBases env request.documents bs with
      | (.ok ids, c) => (.ok { ids := ids }, Call.listBases :: c)
      | (.error e, c) => (.error e, Call.listBases :: c)

/-- One iteration of the query handler's inner loop: issue the filtered
GET, append the mapped records on success, log and skip on failure. -/
def queryTable (env : Airtable) (queryText : String) (baseId tableName : String) :
    List QResult × List Call :=
  let formula := findFormula queryText FIELD_TO_SEARCH
  match env.search baseId tableName formula with
  | .ok recs => (recs.map recToResult, [Call.searchRecords baseId tableName formula])
  | .error _ => ([], [Call.searchRecords baseId tableName formula])

/-- The query handler's inner loop over the tables of one base. -/
def queryTables (env : Airtable) (queryText : String) (baseId : String) :
    List (String × String) → List QResult × List Call
  | [] => ([], [])
  | t :: rest =>
      let hd := queryTable env queryText baseId t.2
      let tl := queryTables env queryText baseId rest
      (hd.1 ++ tl.1, hd.2 ++ tl.2)

/-- The query handler's outer loop over bases; `get_all_tables` failures
propagate uncaught. -/
def queryBases (env : Airtable) (queryText : String) :
    List (String × String) → Except HandlerError (List QResult) × List Call
  | [] => (.ok [], [])
  | b :: rest =>
      match env.tables b.1 with
      | .error s => (.error (.upstream s), [Call.listTables b.1])
      | .ok tbls =>
          let hd := queryTables env queryText b.1 tbls
          match queryBases env queryText rest with
          | (.ok rs, c) => (.ok (hd.1 ++ rs), Call.listTables b.1 :: (hd.2 ++ c))
          | (.error e, c) => (.error e, Call.listTables b.1 :: (hd.2 ++ c))

/-- The `POST /query` handler: `get_all_bases` first, then
`request.queries[0]` (an unguarded index: `IndexError` on an empty batch),
then the nested loop issuing one filtered GET per base-table pair. -/
def query (env : Airtable) (request : QueryRequest) :
    Except HandlerError QueryResponse × List Call :=
  match env.bases with
  | .error s => (.error (.upstream s), [Call.listBases])
  | .ok bs =>
      match request.queries with
      | [] => (.error .indexError, [Call.listBases])
      | q :: _ =>
          match queryBases env q.query bs with
          | (.ok rs, c) => (.ok { results := rs }, Call.listBases :: c)
          | (.error e, c) => (.error e, Call.listBases :: c)

/-- The delete handler's innermost loop over record ids for one table:
one DELETE call per id, counting successes, logging and skipping
failures. -/
def deleteIds (env : Airtable) (baseId tableName : String) :
    List String → Nat × List Call
  | [] => (0, [])
  | rid :: rest =>
      let hit : Nat :=
        match env.deleteRecord baseId tableName rid with
        | .ok _ => 1
        | .error _ => 0
      let tl := deleteIds env baseId tableName rest
      (hit + tl.1, Call.deleteRecord baseId tableName rid :: tl.2)

/-- The delete handler's loop over the tables of one base. -/
def deleteTables (env : Airtable) (ids : List String) (baseId : String) :
    List (String × String) → Nat × List Call
  | [] => (0, [])
  | t :: rest =>
      let hd := deleteIds env baseId t.2 ids
      let tl := deleteTables env ids baseId rest
      (hd.1 + tl.1, hd.2 ++ tl.2)

/-- The delete handler's outer loop over bases; `get_all_tables` failures
propagate uncaught. -/
def deleteBases (env : Airtable) (ids : List String) :
    List (String × String) → Except HandlerError Nat × List Call
  | [] => (.ok 0, [])
  | b :: rest =>
      match env.tables b.1 with
      | .error s => (.error (.upstream s), [Call.listTables b.1])
      | .ok tbls =>
          let hd := deleteTables env ids b.1 tbls
          match deleteBases env ids rest with
          | (.ok n, c) => (.ok (hd.1 + n), Call.listTables b.1 :: (hd.2 ++ c))
          | (.error e, c) => (.error e, Call.listTables b.1 :: (hd.2 ++ c))

/-- The `DELETE /delete` handler: 400 when no ids are given (before any
upstream call), otherwise one DELETE per base-table-id combination,
responding `success := deleted > 0`. -/
def delete (env : Airtable) (request : DeleteRequest) :
    Except HandlerError DeleteResponse × List Call :=
  if request.ids.isEmpty then
    (.error (.http 400), [])
  else
    match env.bases with
    | .error s => (.error (.upstream s), [Call.listBases])
    | .ok bs =>
        match deleteBases env request.ids bs with
        | (.ok n, c) => (.ok { success := decide (0 < n) }, Call.listBases :: c)
        | (.error e, c) => (.error e, Call.listBases :: c)

/-- Whether the per-record delete call recorded in `c` succeeds in `env`
(false on calls that are not record deletes). -/
def deleteSucceeded (env : Airtable) : Call → Bool
  | .deleteRecord b t r =>
      match env.deleteRecord b t r with
      | .ok _ => true
      | .error _ => false
  | _ => false

/-- Whether `c` is a per-record delete call. -/
def isDeleteCall : Call → Bool
  | .deleteRecord _ _ _ => true
  | _ => false

/-- The delete call of every base-table-id combination, in handler order,
for bases `bs` whose tables are given by `tf`. -/
def deleteCombos (bs : List (String × String)) (tf : String → List (String × String))
    (ids : List String) : List Call :=
  bs.flatMap (fun b => (tf b.1).flatMap (fun t => ids.map (Call.deleteRecord b.1 t.2)))

/-- The upstream trace the delete handler issues after its `listBases`
call: per base, one `listTables` then one delete per table-id pair. -/
def deleteTraceExpected (tf : String → List (String × String)) (ids : List String)
    (bs : List (String × String)) : List Call :=
  bs.flatMap (fun b =>
    Call.listTables b.1 :: (tf b.1).flatMap (fun t => ids.map (Call.deleteRecord b.1 t.2)))

theorem deleteIds_eq (env : Airtable) (b t : String) :
    ∀ ids : List String,
      deleteIds env b t ids =
        ((ids.map (Call.deleteRecord b t)).countP (deleteSucceeded env),
         ids.map (Call.deleteRecord b t))
  | [] => rfl
  | rid :: rest => by
      have ih := deleteIds_eq env b t rest
      cases h : env.deleteRecord b t rid <;>
        simp [deleteIds, ih, List.countP_cons, deleteSucceeded, h, Nat.add_comm]

theorem deleteTables_eq (env : Airtable) (ids : List String) (b : String) :
    ∀ tbls : List (String × String),
      deleteTables env ids b tbls =
        (((tbls.flatMap (fun t => ids.map (Call.deleteRecord b t.2)))).countP
            (deleteSucceeded env),
         tbls.flatMap (fun t => ids.map (Call.deleteRecord b t.2)))
  | [] => rfl
  | tbl :: rest => by
      have ih := deleteTables_eq env ids b rest
      simp [deleteTables, deleteIds_eq, ih, List.flatMap_cons, List.countP_append]

theorem deleteBases_eq (env : Airtable) (ids : List String)
    (tf : String → List (String × String)) :
    ∀ bs : List (String × String),
      (∀ p ∈ bs, env.tables p.1 = Except.ok (tf p.1)) →
      deleteBases env ids bs =
        (Except.ok ((deleteCombos bs tf ids).countP (deleteSucceeded env)),
         deleteTraceExpected tf ids bs)
  | [], _ => rfl
  | b :: rest, ht => by
      have hb := ht b (List.mem_cons_self b rest)
      have ih := deleteBases_eq env ids tf rest (fun p hp => ht p (List.mem_cons_of_mem b hp))
      simp [deleteBases, hb, deleteTables_eq, ih, deleteCombos, deleteTraceExpected,
        List.flatMap_cons, List.countP_append, List.countP_cons, deleteSucceeded]

/-- The ids one table contributes to an upsert: the ids Airtable's create
call returned on success, nothing on failure. -/
def createdIds (env : Airtable) (payload : List (List (String × JVal)))
    (baseId tableName : String) : List String :=
  match env.create baseId tableName payload with
  | .ok ids => ids
  | .error _ => []

/-- The ids the upsert handler collects across every base-table pair. -/
def upsertIdsExpected (env : Airtable) (payload : List (List (String × JVal)))
    (tf : String → List (String × String)) (bs : List (String × String)) : List String :=
  bs.flatMap (fun b => (tf b.1).flatMap (fun t => createdIds env payload b.1 t.2))

/-- The upstream trace the upsert handler issues after its `listBases`
call: per base, one `listTables` then one batch create per table. -/
def upsertTraceExpected (payload : List (List (String × JVal)))
    (tf : String → List (String × String)) (bs : List (String × String)) : List Call :=
  bs.flatMap (fun b =>
    Call.listTables b.1 :: (tf b.1).map (fun t => Call.createRecords b.1 t.2 payload))

theorem upsertTables_eq (env : Airtable) (docs : List Document) (b : String) :
    ∀ tbls : List (String × String),
      upsertTables env docs b tbls =
        (tbls.flatMap (fun t => createdIds env (docs.map docToRecordFields) b t.2),
         tbls.map (fun t => Call.createRecords b t.2 (docs.map docToRecordFields)))
  | [] => rfl
  | tbl :: rest => by
      have ih := upsertTables_eq env docs b rest
      cases h : env.create b tbl.2 (docs.map docToRecordFields) <;>
        simp [upsertTables, upsertTable, ih, createdIds, h, List.flatMap_cons]

theorem upsertBases_eq (env : Airtable) (docs : List Document)
    (tf : String → List (String × String)) :
    ∀ bs : List (String × String),
      (∀ p ∈ bs, env.tables p.1 = Except.ok (tf p.1)) →
      upsertBases env docs bs =
        (Except.ok (upsertIdsExpected env (docs.map docToRecordFields) tf bs),
         upsertTraceExpected (docs.map docToRecordFields) tf bs)
  | [], _ => rfl
  | b :: rest, ht => by
      have hb := ht b (List.mem_cons_self b rest)
      have ih := upsertBases_eq env docs tf rest (fun p hp => ht p (List.mem_cons_of_mem b hp))
      simp [upsertBases, hb, upsertTables_eq, ih, upsertIdsExpected, upsertTraceExpected,
        List.flatMap_cons]

/-- The results one table contributes to a query: the mapped records of a
successful filtered fetch, nothing on failure. -/
def searchResultsOf (env : Airtable) (queryText : String)
    (baseId tableName : String) : List QResult :=
  match env.search baseId tableName (findFormula queryText FIELD_TO_SEARCH) with
  | .ok recs => recs.map recToResult
  | .error _ => []

/-- The results the query handler collects across every base-table pair. -/
def queryResultsExpected (env : Airtable) (queryText : String)
    (tf : String → List (String × String)) (bs : List (String × String)) : List QResult :=
  bs.flatMap (fun b => (tf b.1).flatMap (fun t => searchResultsOf env queryText b.1 t.2))

/-- The upstream trace the query handler issues after its `listBases`
call: per base, one `listTables` then one filtered fetch per table. -/
def queryTraceExpected (queryText : String) (tf : String → List (String × String))
    (bs : List (String × String)) : List Call :=
  bs.flatMap (fun b =>
    Call.listTables b.1 ::
      (tf b.1).map (fun t =>
        Call.searchRecords b.1 t.2 (findFormula queryText FIELD_TO_SEARCH)))

theorem queryTables_eq (env : Airtable) (queryText : String) (b : String) :
    ∀ tbls : List (String × String),
      queryTables env queryText b tbls =
        (tbls.flatMap (fun t => searchResultsOf env queryText b t.2),
         tbls.map (fun t =>
           Call.searchRecords b t.2 (findFormula queryText FIELD_TO_SEARCH)))
  | [] => rfl
  | tbl :: rest => by
      have ih := queryTables_eq env queryText b rest
      cases h : env.search b tbl.2 (findFormula queryText FIELD_TO_SEARCH) <;>
        simp [queryTables, queryTable, ih, searchResultsOf, h, List.flatMap_cons]

theorem queryBases_eq (env : Airtable) (queryText : String)
    (tf : String → List (String × String)) :
    ∀ bs : List (String × String),
      (∀ p ∈ bs, env.tables p.1 = Except.ok (tf p.1)) →
      queryBases env queryText bs =
        (Except.ok (queryResultsExpected env queryText tf bs),
         queryTraceExpected queryText tf bs)
  | [], _ => rfl
  | b :: rest, ht => by
      have hb := ht b (List.mem_cons_self b rest)
      have ih := queryBases_eq env queryText tf rest (fun p hp => ht p (List.mem_cons_of_mem b hp))
      simp [queryBases, hb, queryTables_eq, ih, queryResultsExpected, queryTraceExpected,
        List.flatMap_cons]

/-- Strips `pre` from the front of a character list, returning the rest,
or `none` when `pre` is not a front segment. -/
def stripPre : List Char → List Char → Option (List Char)
  | [], cs => some cs
  | _ :: _, [] => none
  | p :: ps, c :: cs => if p = c then stripPre ps cs else none

/-- Splits a character list at the first occurrence of the non-empty
separator `sep`, returning the parts before and after it, or `none` when
`sep` does not occur. -/
def splitFirst (sep : List Char) : List Char → Option (List Char × List Char)
  | [] => none
  | c :: cs =>
      match stripPre sep (c :: cs) with
      | some rest => some ([], rest)
      | none =>
          match splitFirst sep cs with
          | some pr => some (c :: pr.1, pr.2)
          | none => none

/-- Recovers the query text and field name from a formula of the exact
shape the query handler builds, `FIND('<q>', \x7b<f>\x7d)`. -/
def parseFind (formula : String) : Option (String × String) :=
  match stripPre (("FIND(\x27").toList) formula.toList with
  | none => none
  | some rest =>
      match splitFirst (("\x27, \x7b").toList) rest with
      | none => none
      | some qf =>
          match splitFirst (("\x7d)").toList) qf.2 with
          | some fr => if fr.2 = [] then some (String.mk qf.1, String.mk fr.1) else none
          | none => none

/-- Reads a record field as the string Airtable formulas see: the field's
string value, or the empty string when the field is absent. -/
def fieldString (rec : AirRecord) (fieldName : String) : String :=
  match List.lookup fieldName rec.fields with
  | some (JVal.s v) => v
  | _ => ""

/-- Modelled from the spec: the external Airtable service's evaluation of
the query handler's filter (`filterByFormula` with `FIND`); Airtable
itself is not part of this repository.  `FIND(q, f)` returns the 1-based
position of `q` in the record's field `f` (0 when not found; a missing
field reads as empty, and an empty needle finds nothing), and
`filterByFormula` keeps the records where the formula is non-zero, so a
record matches iff `q` is a non-empty substring of its `f` field.  A
formula not of the shape the handler builds is rejected as a 422. -/
def airtableFindSearch (recs : List AirRecord) (formula : String) :
    Except Nat (List AirRecord) :=
  match parseFind formula with
  | some qf =>
      .ok (recs.filter (fun r =>
        (qf.1 != "") && (splitFirst qf.1.toList ((fieldString r qf.2).toList)).isSome))
  | none => .error 422

/-- A concrete upstream world with one base and one table, where creating
records succeeds with one id per record, searching finds nothing, and only
record `r1` can be deleted. -/
def envA : Airtable where
  bases := .ok [("app1", "Base One")]
  tables := fun _ => .ok [("tbl1", "Table One")]
  create := fun _ _ recs => .ok (recs.map (fun _ => "recNew"))
  search := fun _ _ _ => .ok []
  deleteRecord := fun _ _ rid => if rid = "r1" then .ok () else .error 404

/-- A concrete upstream world with two bases of one table each, where
every record-level call on the first base fails and every one on the
second base succeeds. -/
def envB : Airtable where
  bases := .ok [("app1", "B1"), ("app2", "B2")]
  tables := fun bid => .ok (if bid = "app1" then [("t1", "T1")] else [("t2", "T2")])
  create := fun bid _ recs =>
    if bid = "app1" then .error 422 else .ok (recs.map (fun _ => "rC"))
  search := fun bid _ _ =>
    if bid = "app1" then .error 500
    else .ok [{ id := "rQ", fields := [("Metadata", JVal.s "m")] }]
  deleteRecord := fun bid _ _ => if bid = "app1" then .error 403 else .ok ()

/-- A concrete upstream world whose every call, the metadata listing
included, comes back with HTTP status 503. -/
def envMetaFail : Airtable where
  bases := .error 503
  tables := fun _ => .error 503
  create := fun _ _ _ => .error 503
  search := fun _ _ _ => .error 503
  deleteRecord := fun _ _ _ => .error 503

/-- The record of the specification's worked example: its `Text` field
holds `hello world`. -/
def helloRecord : AirRecord :=
  { id := "rec1", fields := [("Text", JVal.s "hello world")] }

/-- The specification's worked example world: one base, one table, one
record whose `Text` field is `hello world`, with searches answered by the
modelled Airtable `FIND` semantics. -/
def envHello : Airtable where
  bases := .ok [("appH", "BaseH")]
  tables := fun _ => .ok [("tblH", "TableH")]
  create := fun _ _ _ => .error 403
  search := fun _ _ formula => airtableFindSearch [helloRecord] formula
  deleteRecord := fun _ _ _ => .error 403

theorem any_eq_decide_countP {α : Type} (p : α → Bool) :
    ∀ l : List α, l.any p = decide (0 < l.countP p)
  | [] => rfl
  | a :: t => by
      have ih := any_eq_decide_countP p t
      cases h : p a <;> simp [List.any_cons, h, ih, List.countP_cons]

theorem filter_isDeleteCall_inner (b : String) (ids : List String)
    (tbls : List (String × String)) :
    ((tbls.flatMap (fun t => ids.map (Call.deleteRecord b t.2)))).filter isDeleteCall =
      tbls.flatMap (fun t => ids.map (Call.deleteRecord b t.2)) := by
  rw [List.filter_eq_self]
  intro a ha
  simp only [List.mem_flatMap, List.mem_map] at ha
  obtain ⟨t, _, rid, _, hEq⟩ := ha
  subst hEq
  rfl

theorem deleteTrace_filter (tf : String → List (String × String)) (ids : List String) :
    ∀ bs : List (String × String),
      (deleteTraceExpected tf ids bs).filter isDeleteCall = deleteCombos bs tf ids
  | [] => rfl
  | b :: rest => by
      have ih := deleteTrace_filter tf ids rest
      simp only [deleteTraceExpected, deleteCombos] at ih
      simp [deleteTraceExpected, deleteCombos, List.flatMap_cons, List.filter_append,
        List.filter_cons, isDeleteCall, ih, filter_isDeleteCall_inner]

/-- C1: when the metadata enumeration succeeds and ids were supplied, the
delete handler issues one individual delete call per base-table-id
combination (the record-delete calls of its trace are exactly
`deleteCombos`), and the response's `success` field is true iff at least
one of those per-id delete calls succeeded, regardless of how many
failed. -/
theorem delete_success_iff_some_combo_succeeded (env : Airtable)
    (bs : List (String × String)) (tf : String → List (String × String))
    (req : DeleteRequest)
    (hb : env.bases = Except.ok bs)
    (ht : ∀ p ∈ bs, env.tables p.1 = Except.ok (tf p.1))
    (hne : req.ids ≠ []) :
    delete env req =
      (Except.ok { success := (deleteCombos bs tf req.ids).any (deleteSucceeded env) },
       Call.listBases :: deleteTraceExpected tf req.ids bs) ∧
    (deleteTraceExpected tf req.ids bs).filter isDeleteCall = deleteCombos bs tf req.ids ∧
    ((deleteCombos bs tf req.ids).any (deleteSucceeded env) = true ↔
      ∃ c ∈ deleteCombos bs tf req.ids, deleteSucceeded env c = true) := by
  have hie : req.ids.isEmpty = false := by
    cases hh : req.ids with
    | nil => exact absurd hh hne
    | cons a l => rfl
  refine ⟨?_, deleteTrace_filter tf req.ids bs, List.any_eq_true⟩
  simp only [delete, hie, hb, Bool.false_eq_true, if_false]
  rw [deleteBases_eq env req.ids tf bs ht, any_eq_decide_countP]

/-- C1 witness: in `envA` (one base, one table) deleting `r1` succeeds and
`r2` fails, and the response still reports success. -/
theorem delete_success_iff_some_combo_succeeded_witness :
    (delete envA { ids := ["r1", "r2"] }).1 = Except.ok { success := true } := by
  have h := delete_success_iff_some_combo_succeeded envA [("app1", "Base One")]
    (fun _ => [("tbl1", "Table One")]) { ids := ["r1", "r2"] } rfl (fun p _ => rfl) (by decide)
  rw [h.1]
  decide

/-- C2 counterexample: a non-success Airtable response is not always
recovered locally — when the bases metadata call comes back 503, every
handler aborts with the propagated upstream error after that single call,
instead of continuing. -/
theorem metadata_failure_aborts_request :
    query envMetaFail { queries := [{ query := "hi" }] } =
      (Except.error (HandlerError.upstream 503), [Call.listBases]) ∧
    upsert envMetaFail { documents := [] } =
      (Except.error (HandlerError.upstream 503), [Call.listBases]) ∧
    delete envMetaFail { ids := ["r1"] } =
      (Except.error (HandlerError.upstream 503), [Call.listBases]) :=
  ⟨rfl, rfl, rfl⟩

/-- C2 amended: only per-table record-level Airtable calls (batch create,
filtered fetch, per-record delete) are recovered locally — whatever their
outcomes, each handler completes with an `ok` response aggregating over
all remaining base-table combinations; metadata enumeration failures, by
contrast, propagate (see the counterexample). -/
theorem record_level_failures_recovered (env : Airtable)
    (bs : List (String × String)) (tf : String → List (String × String))
    (hb : env.bases = Except.ok bs)
    (ht : ∀ p ∈ bs, env.tables p.1 = Except.ok (tf p.1)) :
    (∀ req : UpsertRequest,
      (upsert env req).1 =
        Except.ok { ids := upsertIdsExpected env (req.documents.map docToRecordFields) tf bs }) ∧
    (∀ q : Query, ∀ rest : List Query,
      (query env { queries := q :: rest }).1 =
        Except.ok { results := queryResultsExpected env q.query tf bs }) ∧
    (∀ req : DeleteRequest, req.ids ≠ [] →
      ∃ resp : DeleteResponse, (delete env req).1 = Except.ok resp) := by
  refine ⟨fun req => ?_, fun q rest => ?_, fun req hne => ?_⟩
  · simp only [upsert, hb]
    rw [upsertBases_eq env req.documents tf bs ht]
  · simp only [query, hb]
    rw [queryBases_eq env q.query tf bs ht]
  · have hie : req.ids.isEmpty = false := by
      cases hh : req.ids with
      | nil => exact absurd hh hne
      | cons a l => rfl
    simp only [delete, hie, hb, Bool.false_eq_true, if_false]
    rw [deleteBases_eq env req.ids tf bs ht]
    exact ⟨_, rfl⟩

/-- C2 witness: in `envB` every record-level call on the first base fails
and every one on the second succeeds; all three handlers still answer
`ok`, aggregating only the second base's outcomes. -/
theorem record_level_failures_recovered_witness :
    (upsert envB { documents := [{ id := "d1", text := "t", metadata := [] }] }).1 =
      Except.ok { ids := ["rC"] } ∧
    (query envB { queries := [{ query := "q" }] }).1 =
      Except.ok { results := [{ id := "rQ", text := JVal.s "", metadata := JVal.s "m" }] } ∧
    ∃ resp : DeleteResponse, (delete envB { ids := ["x"] }).1 = Except.ok resp := by
  have h := record_level_failures_recovered envB [("app1", "B1"), ("app2", "B2")]
    (fun bid => if bid = "app1" then [("t1", "T1")] else [("t2", "T2")]) rfl (fun p _ => rfl)
  refine ⟨?_, ?_, h.2.2 { ids := ["x"] } (by decide)⟩
  · rw [h.1 { documents := [{ id := "d1", text := "t", metadata := [] }] }]
    decide
  · rw [h.2.1 { query := "q" } []]
    decide

/-- C3: when the metadata enumeration succeeds, the upsert response's ids
are exactly the concatenation, over every base-table pair in handler
order, of the ids Airtable's create call returned where it succeeded; a
failed create contributes the empty list, and the handler answers `ok`
(never raising to the caller). -/
theorem upsert_ids_concatenation (env : Airtable)
    (bs : List (String × String)) (tf : String → List (String × String))
    (req : UpsertRequest)
    (hb : env.bases = Except.ok bs)
    (ht : ∀ p ∈ bs, env.tables p.1 = Except.ok (tf p.1)) :
    upsert env req =
      (Except.ok { ids := upsertIdsExpected env (req.documents.map docToRecordFields) tf bs },
       Call.listBases :: upsertTraceExpected (req.documents.map docToRecordFields) tf bs) ∧
    (∀ b t s, env.create b t (req.documents.map docToRecordFields) = Except.error s →
      createdIds env (req.documents.map docToRecordFields) b t = []) ∧
    (∀ b t ids0, env.create b t (req.documents.map docToRecordFields) = Except.ok ids0 →
      createdIds env (req.documents.map docToRecordFields) b t = ids0) := by
  refine ⟨?_, fun b t s hs => ?_, fun b t ids0 hs => ?_⟩
  · simp only [upsert, hb]
    rw [upsertBases_eq env req.documents tf bs ht]
  · simp [createdIds, hs]
  · simp [createdIds, hs]

/-- C3 witness: in `envA`, creating two documents in the single table
yields the two ids Airtable returned, concatenated. -/
theorem upsert_ids_concatenation_witness :
    (upsert envA { documents :=
        [{ id := "d1", text := "t1", metadata := [] },
         { id := "d2", text := "t2", metadata := [("source", "email")] }] }).1 =
      Except.ok { ids := ["recNew", "recNew"] } := by
  have h := upsert_ids_concatenation envA [("app1", "Base One")]
    (fun _ => [("tbl1", "Table One")])
    { documents :=
        [{ id := "d1", text := "t1", metadata := [] },
         { id := "d2", text := "t2", metadata := [("source", "email")] }] }
    rfl (fun p _ => rfl)
  rw [h.1]
  decide

/-- C4: the auth guard accepts exactly the credentials whose scheme is
`Bearer` and whose token equals the configured secret, and rejects every
other credential with a 401 `HTTPException`. -/
theorem validate_token_contract (secret : String) (c : HTTPAuthorizationCredentials) :
    validate_token secret c =
      (if c.scheme = "Bearer" ∧ c.credentials = secret then Except.ok c
       else Except.error (HandlerError.http 401)) := by
  by_cases h1 : c.scheme = "Bearer" <;> by_cases h2 : c.credentials = secret <;>
    simp [validate_token, h1, h2]

/-- C5: a delete request with an empty (or absent) id list is rejected
with a 400 in every upstream world, with an empty trace — no base
enumeration or delete call is ever issued. -/
theorem delete_empty_ids_rejected_400 (env : Airtable) (req : DeleteRequest)
    (h : req.ids = []) :
    delete env req = (Except.error (HandlerError.http 400), []) := by
  simp [delete, h]

/-- C5 witness: the 400 rejection with empty trace, in `envA`. -/
theorem delete_empty_ids_rejected_400_witness :
    delete envA { ids := [] } = (Except.error (HandlerError.http 400), []) :=
  delete_empty_ids_rejected_400 envA { ids := [] } rfl

/-- C6: in the specification's worked example world (one base, one table,
one record whose `Text` field is `hello world`, Airtable answering with
`FIND` semantics), querying `hello` returns an empty result list — not the
record's id and text — because the handler searches the placeholder field
`YourActualFieldNameHere` rather than `Text`; querying `xyz` also returns
an empty list without error; and had the formula been built over `Text`,
the record would have matched. -/
theorem query_hello_world_example_fails :
    (query envHello { queries := [{ query := "hello" }] }).1 =
      Except.ok { results := [] } ∧
    (query envHello { queries := [{ query := "xyz" }] }).1 =
      Except.ok { results := [] } ∧
    airtableFindSearch [helloRecord] (findFormula ("hello") ("Text")) =
      Except.ok [helloRecord] ∧
    FIELD_TO_SEARCH ≠ "Text" :=
  ⟨by decide, by decide, by decide, by decide⟩

/-- C7: the query handler honors only the first query of a batch — the
response is identical whatever further queries the batch carries. -/
theorem query_honors_only_first_query (env : Airtable) (q : Query) (rest : List Query) :
    query env { queries := q :: rest } = query env { queries := [q] } := by
  cases henv : env.bases <;> simp [query, henv]

/-- C8: the document-to-record mapping produces exactly the field set
`DocumentID`, `Text`, `Metadata`, holding the document's id, its text, and
its metadata serialized to a string. -/
theorem docToRecordFields_exact_fields (doc : Document) :
    (docToRecordFields doc).map Prod.fst = ["DocumentID", "Text", "Metadata"] ∧
    List.lookup ("DocumentID") (docToRecordFields doc) = some (JVal.s doc.id) ∧
    List.lookup ("Text") (docToRecordFields doc) = some (JVal.s doc.text) ∧
    List.lookup ("Metadata") (docToRecordFields doc) =
      some (JVal.s (pyDictRepr doc.metadata)) :=
  ⟨rfl, rfl, rfl, rfl⟩

/-- C9: the record-to-result mapping extracts the record's id, the
designated searched field, and the `Metadata` field, and when the searched
or metadata field is absent the result holds the empty string or the empty
mapping respectively. -/
theorem recToResult_extraction_and_defaults (rec : AirRecord) :
    (recToResult rec).id = rec.id ∧
    (recToResult rec).text = (List.lookup FIELD_TO_SEARCH rec.fields).getD (JVal.s "") ∧
    (recToResult rec).metadata = (List.lookup ("Metadata") rec.fields).getD (JVal.o []) ∧
    (List.lookup FIELD_TO_SEARCH rec.fields = none → (recToResult rec).text = JVal.s "") ∧
    (List.lookup ("Metadata") rec.fields = none → (recToResult rec).metadata = JVal.o []) := by
  refine ⟨rfl, rfl, rfl, fun h => ?_, fun h => ?_⟩ <;> simp [recToResult, h]

/-- C9 witness: on a record with no fields, the mapped result defaults to
the empty string and the empty mapping. -/
theorem recToResult_extraction_and_defaults_witness :
    (recToResult { id := "r0", fields := [] }).text = JVal.s "" ∧
    (recToResult { id := "r0", fields := [] }).metadata = JVal.o [] :=
  ⟨(recToResult_extraction_and_defaults { id := "r0", fields := [] }).2.2.2.1 rfl,
   (recToResult_extraction_and_defaults { id := "r0", fields := [] }).2.2.2.2 rfl⟩

/-- C10: a query request with an empty batch fails with the unguarded
indexing error after the bases call — an unhandled exception surfaced by
the framework boundary as a 500, not a validation error and not an empty
result. -/
theorem query_empty_queries_unhandled_500 (env : Airtable)
    (bs : List (String × String)) (hb : env.bases = Except.ok bs) :
    query env { queries := [] } =
      (Except.error HandlerError.indexError, [Call.listBases]) ∧
    statusOf HandlerError.indexError = 500 ∧
    HandlerError.indexError ≠ HandlerError.http 400 := by
  refine ⟨?_, rfl, by decide⟩
  simp [query, hb]

/-- C10 witness: the empty-batch 500 in `envA`. -/
theorem query_empty_queries_unhandled_500_witness :
    query envA { queries := [] } =
      (Except.error HandlerError.indexError, [Call.listBases]) :=
  (query_empty_queries_unhandled_500 envA [("app1", "Base One")] rfl).1

end Server
